import Mathlib

/-!
# Verification of the `scraping` repository's extraction contract

This file shallowly embeds `src/scraper.py` (a single-page web scraper built
on `requests` + BeautifulSoup) and proves the specification's claims about it.

Modelling conventions:

* An HTML `Document` is a tree of element and text nodes (`Node`, below),
  the result of the lenient parse step.  The root node plays the role of the
  `BeautifulSoup` object (BS4's `[document]` pseudo-element): searches such as
  `find` / `find_all` range over its strict descendants in document order
  (preorder depth-first), exactly as BS4's `descendants` iterator does.
* Attributes are an association list of `(name, value)` string pairs.  The
  `class` attribute is modelled as its literal string value; BS4 splits it
  into tokens, but a whitespace-free needle such as `"testimonial"` is a
  substring of some token iff it is a substring of the space-joined value,
  so the substring heuristics of the source are unaffected.
* Python's `str.strip` / `str.lower` / `in` / `startswith` are embedded as
  executable functions over the `List Char` data of a `String` (ASCII case
  folding, the whitespace set { space, tab, CR, LF }).
* The network is an explicit input: a `FetchOutcome` is either a raised
  `requests.RequestException` or a final HTTP response (status, body).
  `Response.raise_for_status` raises exactly for statuses in [400, 600);
  the raised `HTTPError` is a `RequestException`, caught by `fetch_page`.
* Exceptions do not otherwise occur in the extraction code, so the embedding
  is total: "does not raise to its caller" is reflected by totality.
* Python dict results: the specialised extractor always builds the four-key
  record `BuyGoodsData`, and `scrape` either returns it or the empty dict
  `{}` (modelled as `Option.none`).  The `contact_info` sub-dict either has
  a `social_media` key or is empty, modelled as `Option (List String)`.
-/

/- An HTML tree node: an element with a tag name, attributes and children,
or a text node.  `NodeList` is an inlined list so that all traversals are
structural (kernel-reducible) mutual recursions. -/
mutual

/-- An HTML tree node: an element with tag name, attributes and children,
or a text node. -/
inductive Node where
  | elem (tag : String) (attrs : List (String × String)) (children : NodeList)
  | text (s : String)

/-- An inlined list of sibling nodes. -/
inductive NodeList where
  | nil
  | cons (head : Node) (tail : NodeList)

end

/-- Leading-characters test: `leadsChars n h` is true iff `n` is an initial
segment of `h` (Python `h.startswith(n)` on character lists). -/
def leadsChars : List Char → List Char → Bool
  | [], _ => true
  | _ :: _, [] => false
  | a :: as, b :: bs => a == b && leadsChars as bs

/-- Substring test on character lists: Python `needle in hay`. -/
def hasSubChars (needle : List Char) : List Char → Bool
  | [] => leadsChars needle []
  | b :: bs => leadsChars needle (b :: bs) || hasSubChars needle bs

/-- Python `needle in hay` on strings. -/
def strContains (hay needle : String) : Bool :=
  hasSubChars needle.data hay.data

/-- Python `str.lower()` (ASCII case folding). -/
def pyLower (s : String) : String :=
  ⟨s.data.map Char.toLower⟩

/-- The whitespace characters stripped by the model of Python `str.strip()`. -/
def isWsChar (c : Char) : Bool :=
  c == ' ' || c == '\t' || c == '\n' || c == '\r'

/-- Drop leading whitespace characters. -/
def dropLeadWs : List Char → List Char
  | [] => []
  | c :: cs => if isWsChar c then dropLeadWs cs else c :: cs

/-- Python `str.strip()`: drop leading and trailing whitespace. -/
def pyStrip (s : String) : String :=
  ⟨(dropLeadWs ((dropLeadWs s.data).reverse)).reverse⟩

/-- Python `text.startswith('©')`. -/
def beginsCopyright (s : String) : Bool :=
  match s.data with
  | [] => false
  | c :: _ => c == '©'

/-- The tag name of a node (text nodes have none). -/
def Node.tagName : Node → String
  | .elem t _ _ => t
  | .text _ => ""

/-- Attribute lookup, BS4 `tag.get(key)` / `tag[key]`. -/
def Node.attrOf (n : Node) (key : String) : Option String :=
  match n with
  | .text _ => none
  | .elem _ attrs _ => (attrs.find? (fun p => p.1 == key)).map (fun p => p.2)

mutual

/-- All text-node strings below a node, in document order (the strings BS4's
`get_text` joins). -/
def Node.texts : Node → List String
  | .text s => [s]
  | .elem _ _ cs => NodeList.textsList cs

/-- Text-node strings below each node of a list, in order. -/
def NodeList.textsList : NodeList → List String
  | .nil => []
  | .cons c cs => Node.texts c ++ NodeList.textsList cs

end

/-- BS4 `tag.get_text()`: concatenation of all descendant strings. -/
def get_text (n : Node) : String :=
  String.join (Node.texts n)

/-- BS4 `tag.get_text(strip=True)`: each descendant string stripped, then
concatenated (empty remnants vanish in the concatenation). -/
def get_text_strip (n : Node) : String :=
  String.join ((Node.texts n).map pyStrip)

mutual

/-- The element (Tag) descendants of a node, itself included when it is an
element, in document order (preorder depth-first). -/
def Node.selfDesc : Node → List Node
  | .text _ => []
  | .elem t a cs => .elem t a cs :: NodeList.descList cs

/-- Element descendants contributed by a list of children, in order. -/
def NodeList.descList : NodeList → List Node
  | .nil => []
  | .cons c cs => Node.selfDesc c ++ NodeList.descList cs

end

/-- The strict element descendants of a node, in document order.  For the
root node this is every element of the document, which is what BS4's
`soup.find_all` iterates over; for an inner tag, `tag.find_all` likewise
searches descendants only, never the tag itself. -/
def Node.descendants : Node → List Node
  | .text _ => []
  | .elem _ _ cs => NodeList.descList cs

/-- BS4 `find_all(predicate)`: all element descendants matching, in document
order. -/
def bsFindAll (p : Node → Bool) (n : Node) : List Node :=
  (Node.descendants n).filter p

/-- BS4 `find(predicate)`: the first element descendant matching, if any. -/
def bsFind (p : Node → Bool) (n : Node) : Option Node :=
  (bsFindAll p n).head?

/-- A value of the Python `Dict` returned by the generic scraper: the spec
assigns it string-valued and string-list-valued keys. -/
inductive DVal where
  | str (s : String)
  | strList (l : List String)
deriving DecidableEq

/-- One testimonial record `{quote, author}`. -/
structure Testimonial where
  quote : String
  author : String
deriving DecidableEq

/-- The specialised extractor's four-key result record.  `contact_info` is
`some l` when the `social_media` key is present with value `l`, and `none`
when `contact_info` is the empty mapping. -/
structure BuyGoodsData where
  title : String
  features : List String
  testimonials : List Testimonial
  contact_info : Option (List String)
deriving DecidableEq

/-- The state a `WebScraper` instance carries (`self.url`, `self.headers`);
the extraction methods receive it as `self` but never read or write it. -/
structure ScraperState where
  url : String
  userAgentHeader : String
deriving DecidableEq

/-- The fixed browser-like `User-Agent` header from `WebScraper.__init__`. -/
def defaultUserAgent : String :=
  "Mozilla/5.0 (Macintosh; Intel Mac OS X 10_15_7) AppleWebKit/537.36 (KHTML, like Gecko) Chrome/91.0.4472.124 Safari/537.36"

/-- `WebScraper.__init__(url)`. -/
def WebScraper.init (url : String) : ScraperState :=
  ⟨url, defaultUserAgent⟩

/-- `BuyGoodsScraper.__init__`: hard-codes the target URL. -/
def BuyGoodsScraper.init : ScraperState :=
  WebScraper.init "https://buygoods.com"

/-- The outcome of the one `requests.get` round trip: either the library
raised a `RequestException` (connection error, timeout, too many redirects),
or a final HTTP response with a status code and body text arrived. -/
inductive FetchOutcome where
  | exn
  | response (status : Nat) (body : String)
deriving DecidableEq

/-- `WebScraper.fetch_page`: returns `response.text` on success; the
`except requests.RequestException` arm turns a connection error or the
`HTTPError` raised by `response.raise_for_status()` (statuses 400–599)
into the empty string. -/
def fetch_page : FetchOutcome → String
  | .exn => ""
  | .response status body =>
      if 400 ≤ status ∧ status < 600 then "" else body

/-- `WebScraper._extract_data`: the base-class hook returns the empty dict
(`return {}`); subclasses override it. -/
def WebScraper.extract_data (_soup : Node) : List (String × DVal) :=
  []

/-- `WebScraper.scrape` with the base-class `_extract_data`: fetch, return
`{}` on falsy (empty) content, otherwise parse and extract.  The parse step
is an explicit parameter (any lenient HTML parser). -/
def WebScraper.scrape (parse : String → Node) (fr : FetchOutcome) :
    List (String × DVal) :=
  let html := fetch_page fr
  if html = "" then [] else WebScraper.extract_data (parse html)

/-- `BuyGoodsScraper._get_text`: `element.get_text(strip=True) if element
else ""`. -/
def BuyGoodsScraper.safe_get_text (_self : ScraperState) : Option Node → String
  | some e => get_text_strip e
  | none => ""

/-- `BuyGoodsScraper._extract_features`: over all `h4` elements, keep each
stripped text that is truthy (non-empty) and does not start with `'©'`. -/
def BuyGoodsScraper.extract_features (self : ScraperState) (soup : Node) :
    List String :=
  (bsFindAll (fun t => t.tagName == "h4") soup).filterMap (fun feature =>
    let text := BuyGoodsScraper.safe_get_text self (some feature)
    if text != "" && !(beginsCopyright text) then some text else none)

/-- The `class_` matcher of `_extract_testimonials`:
`lambda x: x and 'testimonial' in x.lower()` applied to the class attribute
(absent attribute, i.e. `x = None`, does not match). -/
def classMatchesTestimonial (t : Node) : Bool :=
  match t.attrOf "class" with
  | some x => x != "" && strContains (pyLower x) "testimonial"
  | none => false

/-- The quote matcher: `tag.name in ['p', 'div'] and tag.get_text(strip=True)`. -/
def isQuoteTag (t : Node) : Bool :=
  (["p", "div"].contains t.tagName) && get_text_strip t != ""

/-- The author matcher: `tag.name in ['h4', 'h5', 'strong']`. -/
def isAuthorTag (t : Node) : Bool :=
  ["h4", "h5", "strong"].contains t.tagName

/-- `BuyGoodsScraper._extract_testimonials`: for each element whose class
matches `classMatchesTestimonial`, find the first quote-like and the first
author-like descendant; append a record only when both exist. -/
def BuyGoodsScraper.extract_testimonials (self : ScraperState) (soup : Node) :
    List Testimonial :=
  (bsFindAll classMatchesTestimonial soup).filterMap (fun sec =>
    match bsFind isQuoteTag sec, bsFind isAuthorTag sec with
    | some quote, some author =>
        some { quote := BuyGoodsScraper.safe_get_text self (some quote)
             , author := BuyGoodsScraper.safe_get_text self (some author) }
    | _, _ => none)

/-- The contact-section matcher: `tag.name in ['div', 'section'] and
any(text in tag.get_text().lower() for text in ['contact', 'get in touch'])`. -/
def isContactContainer (t : Node) : Bool :=
  (["div", "section"].contains t.tagName) &&
    (["contact", "get in touch"].any (fun text =>
      strContains (pyLower (get_text t)) text))

/-- The platform filter on an href value:
`any(platform in link['href'].lower() for platform in [...])`. -/
def hrefIsSocial (href : String) : Bool :=
  ["facebook", "twitter", "linkedin", "instagram"].any (fun platform =>
    strContains (pyLower href) platform)

/-- `BuyGoodsScraper._extract_contact_info`: find the first contact-like
container; if one exists, set the `social_media` key to its platform-matching
link hrefs, else return the empty dict. -/
def BuyGoodsScraper.extract_contact_info (_self : ScraperState) (soup : Node) :
    Option (List String) :=
  match bsFind isContactContainer soup with
  | none => none
  | some contact_section =>
      let social_links :=
        bsFindAll (fun t => t.tagName == "a" && (t.attrOf "href").isSome)
          contact_section
      some ((social_links.filterMap (fun link => link.attrOf "href")).filter
        hrefIsSocial)

/-- `BuyGoodsScraper._extract_data`: the four-field record. -/
def BuyGoodsScraper.extract_data (self : ScraperState) (soup : Node) :
    BuyGoodsData :=
  { title := BuyGoodsScraper.safe_get_text self
      (bsFind (fun t => t.tagName == "title") soup)
  , features := BuyGoodsScraper.extract_features self soup
  , testimonials := BuyGoodsScraper.extract_testimonials self soup
  , contact_info := BuyGoodsScraper.extract_contact_info self soup }

/-- `WebScraper.scrape` as dispatched for a `BuyGoodsScraper` instance:
`none` models the empty dict `{}` returned when the fetched content is
falsy; otherwise the parsed document is handed to `_extract_data`. -/
def BuyGoodsScraper.scrape (self : ScraperState) (parse : String → Node)
    (fr : FetchOutcome) : Option BuyGoodsData :=
  let html := fetch_page fr
  if html = "" then none
  else some (BuyGoodsScraper.extract_data self (parse html))

/-! ## Generic list lemmas used to relate the operational embedding
(`bsFind` / `bsFindAll`, the translated loops) to declarative statements. -/

/-- The first element surviving a filter is the first element satisfying the
predicate. -/
theorem head?_filter_eq_find? {α : Type} (p : α → Bool) :
    ∀ l : List α, (l.filter p).head? = l.find? p
  | [] => rfl
  | a :: l => by
    cases h : p a
    · simp [List.filter_cons, List.find?_cons, h, head?_filter_eq_find? p l]
    · simp [List.filter_cons, List.find?_cons, h]

/-- A loop that appends `g a` when it passes a test is a filter of the map. -/
theorem filterMap_stripGuard {α : Type} (g : α → String) (q : String → Bool) :
    ∀ l : List α,
      (l.filterMap (fun a => if q (g a) then some (g a) else none)) = (l.map g).filter q
  | [] => rfl
  | a :: l => by
    cases h : q (g a) <;>
      simp [List.filterMap_cons, List.map_cons, List.filter_cons, h,
        filterMap_stripGuard g q l]

/-- Collecting `f` over the elements pre-filtered for `p` and the presence of
`f` (BS4's `find_all('a', href=True)` followed by `link['href']`) is one
conditional `filterMap`. -/
theorem filterMap_over_filter_isSome (p : Node → Bool) (f : Node → Option String) :
    ∀ l : List Node,
      ((l.filter (fun t => p t && (f t).isSome)).filterMap f)
        = l.filterMap (fun t => if p t then f t else none)
  | [] => rfl
  | a :: l => by
    cases hp : p a <;> cases hf : f a <;>
      simp [List.filter_cons, List.filterMap_cons, hp, hf,
        filterMap_over_filter_isSome p f l]

/-- What `find` returns satisfies the predicate it searched for. -/
theorem bsFind_some {p : Node → Bool} {n x : Node} (h : bsFind p n = some x) :
    p x = true := by
  rw [bsFind, bsFindAll, head?_filter_eq_find?] at h
  exact List.find?_some h

/-- `_extract_features` in declarative form: the stripped texts of all `h4`
elements, keeping exactly the non-empty ones that do not start with `'©'`. -/
theorem extract_features_eq (self : ScraperState) (soup : Node) :
    BuyGoodsScraper.extract_features self soup =
      (((Node.descendants soup).filter (fun t => t.tagName == "h4")).map get_text_strip).filter
        (fun text => text != "" && !(beginsCopyright text)) := by
  have h := filterMap_stripGuard (α := Node) get_text_strip
    (fun text => text != "" && !(beginsCopyright text))
    ((Node.descendants soup).filter (fun t => t.tagName == "h4"))
  exact h

/-- The contact-container matcher, with the membership tests on the literal
tag-name and phrase lists unfolded. -/
theorem isContactContainer_eq (t : Node) :
    isContactContainer t =
      ((t.tagName == "div" || t.tagName == "section") &&
        (strContains (pyLower (get_text t)) "contact" ||
         strContains (pyLower (get_text t)) "get in touch")) := by
  simp only [isContactContainer, List.contains_cons, List.contains_nil, Bool.or_false,
    List.any_cons, List.any_nil]

/-! ## Concrete documents used by counterexamples and witnesses -/

/-- A document with one anchor element carrying an `href` attribute. -/
def anchorDoc : Node :=
  .elem "[document]" []
    (.cons (.elem "a" [("href", "https://x.com/page")] (.cons (.text "link") .nil)) .nil)

/-- A document whose only `h4` heading has whitespace-only text. -/
def blankHeadingDoc : Node :=
  .elem "[document]" [] (.cons (.elem "h4" [] (.cons (.text "   ") .nil)) .nil)

/-- A document with an `h4` of blank text, a genuine feature `h4`, and a
copyright-prefixed `h4`. -/
def featureDoc : Node :=
  .elem "[document]" [] (.cons (.elem "h4" [] (.cons (.text "  ") .nil))
    (.cons (.elem "h4" [] (.cons (.text " Fast checkout ") .nil))
      (.cons (.elem "h4" [] (.cons (.text "© 2024 BuyGoods") .nil)) .nil)))

/-- A document with one testimonial-class section holding a quote paragraph
and an author heading with no text. -/
def testimonialDoc : Node :=
  .elem "[document]" [] (.cons (.elem "div" [("class", "Testimonial-box")]
    (.cons (.elem "p" [] (.cons (.text "  Great product  ") .nil))
      (.cons (.elem "h4" [] .nil) .nil))) .nil)

/-- The contact container of `contactDoc`: the spec's worked example with a
facebook link, a non-matching link and a twitter link. -/
def contactDiv : Node :=
  .elem "div" []
    (.cons (.text "Contact us at support") (.cons
      (.elem "a" [("href", "https://facebook.com/x")] (.cons (.text "fb") .nil)) (.cons
      (.elem "a" [("href", "https://example.com/y")] (.cons (.text "ex") .nil)) (.cons
      (.elem "a" [("href", "https://twitter.com/z")] (.cons (.text "tw") .nil)) .nil))))

/-- A document whose only container is `contactDiv`. -/
def contactDoc : Node :=
  .elem "[document]" [] (.cons contactDiv .nil)

/-- A document with a `div` whose text mentions neither "contact" nor
"get in touch". -/
def aboutDoc : Node :=
  .elem "[document]" []
    (.cons (.elem "div" [] (.cons (.text "About our company") .nil)) .nil)

/-! ## The claims -/

/-- The generic extractor as the specification words it: the mapping
`{url, links}` where `links` holds the `href` of every anchor element that
carries one, in document order.  Stated only to be compared against the
source's `WebScraper.extract_data`, which does not behave this way. -/
def specGenericExtract (url : String) (soup : Node) : List (String × DVal) :=
  [("url", DVal.str url),
   ("links", DVal.strList
     ((bsFindAll (fun t => t.tagName == "a" && (t.attrOf "href").isSome) soup).filterMap
       (fun t => t.attrOf "href")))]

/-- Claim C1, counterexample: on a document with one anchor carrying a
target attribute, the base-class extractor does not return the `{url, links}`
mapping the claim describes (it returns the empty mapping). -/
theorem C1_generic_extractor_counterexample :
    WebScraper.extract_data anchorDoc ≠ specGenericExtract "https://buygoods.com" anchorDoc := by
  decide

/-- Claim C1 as amended: for every Document the generic (base-class)
extractor returns the empty mapping — it is a stub for subclasses to
override, collects no links and carries no `url` key — and consequently the
generic scrape call always returns the empty mapping. -/
theorem C1_generic_extractor_returns_empty :
    ∀ (soup : Node), WebScraper.extract_data soup = [] ∧
      ∀ (parse : String → Node) (fr : FetchOutcome), WebScraper.scrape parse fr = [] := by
  intro soup
  exact ⟨rfl, fun parse fr => by simp [WebScraper.scrape, WebScraper.extract_data]⟩

/-- Claim C2, counterexample: a final response with the non-2xx status 304
and a non-empty body is returned as content (`raise_for_status` only raises
for 400–599), so the fetch does not yield an empty result and the scrape
call does not return the empty mapping. -/
theorem C2_non2xx_counterexample :
    fetch_page (FetchOutcome.response 304 "<html>cached</html>") ≠ "" ∧
    BuyGoodsScraper.scrape BuyGoodsScraper.init (fun s => Node.text s)
      (FetchOutcome.response 304 "<html>cached</html>") ≠ none := by
  decide

/-- Claim C2 as amended: for every fetch that fails (a raised
`RequestException`, or a final status in 400–599), `fetch_page` does not
raise (the embedding is total) and yields the empty content result, and the
scrape call then returns the empty mapping. -/
theorem C2_failed_fetch_yields_empty (fr : FetchOutcome)
    (h : fr = FetchOutcome.exn ∨
      ∃ s b, fr = FetchOutcome.response s b ∧ 400 ≤ s ∧ s < 600) :
    fetch_page fr = "" ∧
      ∀ (self : ScraperState) (parse : String → Node),
        BuyGoodsScraper.scrape self parse fr = none ∧ WebScraper.scrape parse fr = [] := by
  have hf : fetch_page fr = "" := by
    rcases h with h | ⟨s, b, rfl, h1, h2⟩
    · rw [h]; rfl
    · simp [fetch_page, h1, h2]
  exact ⟨hf, fun self parse =>
    ⟨by simp [BuyGoodsScraper.scrape, hf],
     by simp [WebScraper.scrape, WebScraper.extract_data, hf]⟩⟩

/-- Witness for C2's amended theorem at the concrete failed fetch
`response 404 "Not Found"`. -/
theorem C2_failed_fetch_yields_empty_witness :
    fetch_page (FetchOutcome.response 404 "Not Found") = "" ∧
    BuyGoodsScraper.scrape BuyGoodsScraper.init (fun s => Node.text s)
      (FetchOutcome.response 404 "Not Found") = none :=
  ⟨(C2_failed_fetch_yields_empty _ (Or.inr ⟨404, "Not Found", rfl, by decide, by decide⟩)).1,
   ((C2_failed_fetch_yields_empty _ (Or.inr ⟨404, "Not Found", rfl, by decide, by decide⟩)).2
     BuyGoodsScraper.init (fun s => Node.text s)).1⟩

/-- `features` as the specification words it: the stripped text of every
`h4`, excluding exactly the copyright-prefixed ones.  Stated only to be
compared against the source's `_extract_features`. -/
def specFeatures (soup : Node) : List String :=
  ((bsFindAll (fun t => t.tagName == "h4") soup).map get_text_strip).filter
    (fun text => !(beginsCopyright text))

/-- Claim C3, counterexample: on a document whose only `h4` has
whitespace-only text, the claimed `features` would contain that heading's
empty trimmed text, but the code also filters out empty texts, so the
exclusion is not exactly the copyright-marker filter. -/
theorem C3_features_counterexample :
    BuyGoodsScraper.extract_features BuyGoodsScraper.init blankHeadingDoc
      ≠ specFeatures blankHeadingDoc := by
  decide

/-- Claim C3 as amended: for every Document, `features` is the trimmed text
of every `h4` heading in document order, excluding exactly those whose
trimmed text is empty or begins with the copyright marker; in particular no
copyright-prefixed heading ever appears in `features`. -/
theorem C3_features_characterization (self : ScraperState) (soup : Node) :
    BuyGoodsScraper.extract_features self soup =
      (((Node.descendants soup).filter (fun t => t.tagName == "h4")).map get_text_strip).filter
        (fun text => text != "" && !(beginsCopyright text)) ∧
    ((BuyGoodsScraper.extract_features self soup).all
      (fun text => !(beginsCopyright text))) = true := by
  refine ⟨extract_features_eq self soup, ?_⟩
  rw [extract_features_eq, List.all_eq_true]
  intro s hs
  rw [List.mem_filter] at hs
  have h2 := hs.2
  rw [Bool.and_eq_true] at h2
  exact h2.2

/-- Claim C4: testimonial candidates are exactly the elements whose class
attribute contains "testimonial" case-insensitively; in each candidate the
quote is the first `p`/`div` descendant with non-empty stripped text and the
author the first `h4`/`h5`/`strong` descendant, both in document order; a
record is emitted only when both exist, a candidate yielding one of the two
contributes nothing, and with no candidates the result is empty. -/
theorem C4_testimonials_characterization (self : ScraperState) (soup : Node) :
    BuyGoodsScraper.extract_testimonials self soup =
      ((Node.descendants soup).filter classMatchesTestimonial).filterMap (fun sec =>
        match (Node.descendants sec).find? isQuoteTag,
              (Node.descendants sec).find? isAuthorTag with
        | some q, some a => some { quote := get_text_strip q, author := get_text_strip a }
        | _, _ => none) := by
  unfold BuyGoodsScraper.extract_testimonials bsFind bsFindAll BuyGoodsScraper.safe_get_text
  simp only [head?_filter_eq_find?]

/-- Claim C5: when a first contact-like container exists, `social_media` is
the sequence of `href` targets of the anchors inside it whose value contains
one of the four platform names case-insensitively, in document order. -/
theorem C5_contact_social_media (self : ScraperState) (soup sec : Node)
    (h : (Node.descendants soup).find? isContactContainer = some sec) :
    BuyGoodsScraper.extract_contact_info self soup =
      some (((Node.descendants sec).filterMap
          (fun t => if t.tagName == "a" then t.attrOf "href" else none)).filter hrefIsSocial) := by
  have hb : bsFind isContactContainer soup = some sec := by
    rw [bsFind, bsFindAll, head?_filter_eq_find?]; exact h
  have h2 := filterMap_over_filter_isSome (fun t => t.tagName == "a")
    (fun t => t.attrOf "href") (Node.descendants sec)
  simp only [BuyGoodsScraper.extract_contact_info, hb, bsFindAll]
  rw [h2]

/-- Witness for C5 at the specification's worked example: links to
facebook.com/x, example.com/y and twitter.com/z yield exactly the first and
third, in order. -/
theorem C5_contact_social_media_witness :
    BuyGoodsScraper.extract_contact_info BuyGoodsScraper.init contactDoc =
      some ["https://facebook.com/x", "https://twitter.com/z"] :=
  (C5_contact_social_media BuyGoodsScraper.init contactDoc contactDiv rfl).trans (by decide)

/-- Claim C6: when no `div`/`section` container's full text contains
"contact" or "get in touch" case-insensitively, the extracted `contact_info`
is the empty mapping, with no `social_media` key at all. -/
theorem C6_no_contact_container_empty_mapping (self : ScraperState) (soup : Node)
    (h : ((Node.descendants soup).all (fun t =>
        !((t.tagName == "div" || t.tagName == "section") &&
          (strContains (pyLower (get_text t)) "contact" ||
           strContains (pyLower (get_text t)) "get in touch")))) = true) :
    (BuyGoodsScraper.extract_data self soup).contact_info = none := by
  have hfilter : (Node.descendants soup).filter isContactContainer = [] := by
    rw [List.filter_eq_nil_iff]
    intro a ha
    have h2 := List.all_eq_true.mp h a ha
    simp only [Bool.not_eq_true'] at h2
    simp [isContactContainer_eq, h2]
  have hb : bsFind isContactContainer soup = none := by
    rw [bsFind, bsFindAll, hfilter]; rfl
  show BuyGoodsScraper.extract_contact_info self soup = none
  unfold BuyGoodsScraper.extract_contact_info
  rw [hb]

/-- Witness for C6 at a document whose only container talks about something
else. -/
theorem C6_no_contact_container_empty_mapping_witness :
    (BuyGoodsScraper.extract_data BuyGoodsScraper.init aboutDoc).contact_info = none :=
  C6_no_contact_container_empty_mapping BuyGoodsScraper.init aboutDoc (by decide)

/-- Claim C7: extraction is a pure function of the Document.  The only state
a scraper instance owns is `self` (`url`, headers), which the source never
mutates; the embedding therefore threads no state, two calls on the same
Document are the same function application, and — as proved here — the
result does not depend on the instance state at all. -/
theorem C7_extraction_pure (s1 s2 : ScraperState) (soup : Node) :
    BuyGoodsScraper.extract_data s1 soup = BuyGoodsScraper.extract_data s2 soup := rfl

/-- Claim C8: `features` never contains the empty string — `h4` headings
whose trimmed text is empty are excluded in addition to the copyright
filter, as the concrete document with a blank heading shows. -/
theorem C8_features_never_empty :
    (∀ (self : ScraperState) (soup : Node),
      ((BuyGoodsScraper.extract_features self soup).all (fun text => text != "")) = true) ∧
    BuyGoodsScraper.extract_features BuyGoodsScraper.init featureDoc = ["Fast checkout"] := by
  constructor
  · intro self soup
    rw [extract_features_eq, List.all_eq_true]
    intro s hs
    rw [List.mem_filter] at hs
    have h2 := hs.2
    rw [Bool.and_eq_true] at h2
    exact h2.1
  · decide

/-- Claim C9: every emitted testimonial has a non-empty quote (the quote
element must have non-empty stripped text), while the author may be the
empty string since the author element is matched by tag name only — as the
concrete document with a text-less `h4` author shows. -/
theorem C9_quote_nonempty_author_optional :
    (∀ (self : ScraperState) (soup : Node),
      ((BuyGoodsScraper.extract_testimonials self soup).all (fun t => t.quote != "")) = true) ∧
    BuyGoodsScraper.extract_testimonials BuyGoodsScraper.init testimonialDoc =
      [{ quote := "Great product", author := "" }] := by
  constructor
  · intro self soup
    rw [List.all_eq_true]
    intro t ht
    unfold BuyGoodsScraper.extract_testimonials at ht
    rw [List.mem_filterMap] at ht
    obtain ⟨sec, _, hsec⟩ := ht
    cases hq : bsFind isQuoteTag sec with
    | none =>
      simp only [hq] at hsec
      exact Option.noConfusion hsec
    | some q =>
      cases ha : bsFind isAuthorTag sec with
      | none =>
        simp only [hq, ha] at hsec
        exact Option.noConfusion hsec
      | some a =>
        simp only [hq, ha, Option.some.injEq] at hsec
        have hpq := bsFind_some hq
        rw [isQuoteTag, Bool.and_eq_true] at hpq
        subst hsec
        simpa [BuyGoodsScraper.safe_get_text] using hpq.2
  · decide

/-- Claim C10: whenever the fetched body is the empty string — which a
successful 2xx response with an empty body also produces, not only a
transport failure — the scrape call returns the empty mapping without
parsing, indistinguishable from a failed fetch. -/
theorem C10_empty_body_scrape_empty (self : ScraperState) (parse : String → Node)
    (fr : FetchOutcome) (h : fetch_page fr = "") :
    BuyGoodsScraper.scrape self parse fr = none ∧
      BuyGoodsScraper.scrape self parse fr =
        BuyGoodsScraper.scrape self parse FetchOutcome.exn := by
  have he : fetch_page FetchOutcome.exn = "" := rfl
  constructor
  · simp [BuyGoodsScraper.scrape, h]
  · simp [BuyGoodsScraper.scrape, h, he]

/-- Witness for C10 at the concrete successful-but-empty fetch
`response 200 ""`. -/
theorem C10_empty_body_scrape_empty_witness :
    fetch_page (FetchOutcome.response 200 "") = "" ∧
    BuyGoodsScraper.scrape BuyGoodsScraper.init (fun s => Node.text s)
      (FetchOutcome.response 200 "") = none :=
  ⟨rfl, (C10_empty_body_scrape_empty BuyGoodsScraper.init (fun s => Node.text s)
    (FetchOutcome.response 200 "") rfl).1⟩
